import Mathlib

/-!
Verification of the synchronous chat-proxy core of `src/backend/api/main.py`:
the token cache (`get_token`), the run poller (`_poll_run_result`), the
response extractor (`_extract_final_text`) and the non-streaming endpoint
handler (`chat_non_stream`).

Upstream payloads are JSON values decoded by Python's `json` module; we model
them with the `Json` inductive below (numbers as integers — no claim involves
floating point).  Python string operations `.strip()` and `.lower()` are
modelled over the character list of the string (ASCII-faithful, which covers
every string the claims mention).  Wall-clock instants and durations are
modelled as rationals.
-/

/-- JSON-like values as decoded by Python `json.loads`: `None`, booleans,
numbers, strings, lists, and dicts (association lists in insertion order). -/
inductive Json where
  | null
  | bool (b : Bool)
  | num (n : Int)
  | str (s : String)
  | arr (items : List Json)
  | obj (fields : List (String × Json))

/-- First value bound to key `k` in a dict's field list. -/
def Json.lookup (k : String) : List (String × Json) → Option Json
  | [] => none
  | (k2, v) :: rest => if k2 = k then some v else Json.lookup k rest

/-- Python truthiness of a JSON value (`bool(x)`). -/
def Json.truthy : Json → Bool
  | .null => false
  | .bool b => b
  | .num n => n != 0
  | .str s => s ≠ ""
  | .arr items => ¬ items.isEmpty
  | .obj fields => ¬ fields.isEmpty

/-- Whether a JSON value is a dict (`isinstance(x, dict)`). -/
def Json.isObj : Json → Bool
  | .obj _ => true
  | _ => false

/-- Whether a JSON value is a string (`isinstance(x, str)`). -/
def Json.isStr : Json → Bool
  | .str _ => true
  | _ => false

/-- Python `a or b`: `a` if truthy, else `b`. -/
def pyOr (a b : Json) : Json := if a.truthy then a else b

/-- Python `d.get(k)` on a dict: the value if the key is present, else `None`.
Only applied where the source has already established `d` is a dict. -/
def jGetD (d : Json) (k : String) : Json :=
  match d with
  | .obj fields => (Json.lookup k fields).getD .null
  | _ => .null

/-- Python `d[k]` under a `try`: `none` models the KeyError (key absent) or
TypeError (`d` not a dict) that the enclosing `except` swallows. -/
def pyIndex (d : Json) (k : String) : Option Json :=
  match d with
  | .obj fields => Json.lookup k fields
  | _ => none

/-- Python `s.strip()`: remove leading and trailing whitespace. -/
def pyStrip (s : String) : String :=
  String.mk (((s.data.dropWhile Char.isWhitespace).reverse.dropWhile
    Char.isWhitespace).reverse)

/-- Lower-case one character (ASCII; `str.lower` on the statuses in play). -/
def lowerChar (c : Char) : Char :=
  if 'A' ≤ c ∧ c ≤ 'Z' then Char.ofNat (c.toNat + 32) else c

/-- Python `s.lower()`. -/
def pyLower (s : String) : String := String.mk (s.data.map lowerChar)

/-- The `text` field of a content element when the element is a dict and the
field is a string (`isinstance(c, dict) and isinstance(c.get("text"), str)`). -/
def textOf : Json → Option String
  | .obj fields =>
    match Json.lookup "text" fields with
    | some (.str s) => some s
    | _ => none
  | _ => none

/-- Order-preserving deduplication, first occurrence kept
(`list(dict.fromkeys(texts))`), with an accumulator of seen strings. -/
def dedupAux (seen : List String) : List String → List String
  | [] => []
  | x :: xs => if x ∈ seen then dedupAux seen xs else x :: dedupAux (x :: seen) xs

/-- `list(dict.fromkeys(texts))`. -/
def dedupFirst (l : List String) : List String := dedupAux [] l

/-- `"\n".join(dedup).strip()` applied to the collected texts. -/
def joinTexts (texts : List String) : String :=
  pyStrip (String.intercalate "\n" (dedupFirst texts))

/-- The descent `payload["result"]["data"]["message"]["content"]` inside the
`try`, `none` when any step raises (missing key or non-dict). -/
def step1Contents (payload : Json) : Option Json := do
  let r ← pyIndex payload "result"
  let d ← pyIndex r "data"
  let m ← pyIndex d "message"
  pyIndex m "content"

/-- Extraction step 1 of `_extract_final_text`: when the descent succeeds,
`contents` is a list and at least one string `text` field is collected,
the dedup-join-strip result is returned (even when it strips to empty). -/
def step1 (payload : Json) : Option String :=
  match step1Contents payload with
  | some (.arr cs) =>
    let texts := cs.filterMap textOf
    if texts.isEmpty then none else some (joinTexts texts)
  | _ => none

/-- Extraction step 2: `payload.get("response")` when it is a string whose
strip is nonempty, returned stripped. -/
def step2 (payload : Json) : Option String :=
  match pyIndex payload "response" with
  | some (.str s) => if pyStrip s = "" then none else some (pyStrip s)
  | _ => none

/-- Extraction step 3: `payload.get("content")` when a list, same
collect-dedup-join-strip rule as step 1. -/
def step3 (payload : Json) : Option String :=
  match pyIndex payload "content" with
  | some (.arr cs) =>
    let texts := cs.filterMap textOf
    if texts.isEmpty then none else some (joinTexts texts)
  | _ => none

/-- `_extract_final_text` of `main.py` lines 229-258: non-dicts map to `""`;
otherwise the three steps are tried in order and `""` is the fallback. -/
def _extract_final_text (payload : Json) : String :=
  match payload with
  | .obj _ =>
    match step1 payload with
    | some s => s
    | none =>
      match step2 payload with
      | some s => s
      | none =>
        match step3 payload with
        | some s => s
        | none => ""
  | _ => ""

/-- Claim C6: `_extract_final_text` is total and deterministic with
`extract({}) = ""`, `extract({"response": " hi "}) = "hi"`, and
`extract({"result":{"data":{"message":{"content":
[{"text":"a"},{"text":"a"},{"text":"b"}]}}}}) = "a\nb"` — string text fields
are collected, deduplicated preserving first occurrence, joined with a
newline and trimmed. -/
theorem extract_concrete_values :
    _extract_final_text (.obj []) = "" ∧
    _extract_final_text (.obj [("response", .str " hi ")]) = "hi" ∧
    _extract_final_text (.obj [("result", .obj [("data", .obj [("message",
      .obj [("content", .arr [.obj [("text", .str "a")],
        .obj [("text", .str "a")], .obj [("text", .str "b")]])])])])])
      = "a\nb" := by
  refine ⟨rfl, rfl, rfl⟩

/-- Claim C10: on any non-dict payload `_extract_final_text` returns the
empty string immediately, without inspecting any field. -/
theorem extract_non_dict_empty (payload : Json) (h : payload.isObj = false) :
    _extract_final_text payload = "" := by
  cases payload <;> simp_all [Json.isObj, _extract_final_text]

/-- Witness for C10 at concrete non-dict inputs. -/
theorem extract_non_dict_empty_witness :
    _extract_final_text (.arr [.str "x"]) = "" ∧
    _extract_final_text (.str "hello") = "" ∧
    _extract_final_text .null = "" :=
  ⟨extract_non_dict_empty (.arr [.str "x"]) rfl,
   extract_non_dict_empty (.str "hello") rfl,
   extract_non_dict_empty .null rfl⟩

/-- A payload whose `result.data.message.content` texts join and strip to the
empty string while its `response` field strips to a nonempty string. -/
def cxStep1Empty : Json :=
  .obj [("result", .obj [("data", .obj [("message", .obj [("content",
    .arr [.obj [("text", .str " ")]])])])]),
    ("response", .str "hi")]

/-- Counterexample to C1: on `cxStep1Empty` the step-1 texts join and trim to
`""` and `response` is the nonempty trimmed string `"hi"`, yet the extractor
returns `""`, not the trimmed response — step 1 returns its joined-trimmed
string whenever it collected any text field, even when that string is empty,
so step 2 is never attempted. -/
theorem extract_step1_shadows_response :
    joinTexts [" "] = "" ∧
    pyStrip "hi" = "hi" ∧
    ("hi" : String) ≠ "" ∧
    _extract_final_text cxStep1Empty = "" ∧
    _extract_final_text cxStep1Empty ≠ "hi" := by
  refine ⟨rfl, rfl, by decide, rfl, by decide⟩

/-- Claim C1 (amended): a later step of `_extract_final_text` is attempted
only if the prior step yields no candidate; step 1 yields a candidate exactly
when the descent succeeds, `contents` is a list, and at least one string
`text` field is collected — and that candidate is returned even when it trims
to the empty string.  In particular the trimmed `response` is returned
whenever step 1 yields no candidate and `response` is a nonempty trimmed
string. -/
theorem extract_search_order (payload : Json) (h : payload.isObj = true) :
    (∀ t, step1 payload = some t → _extract_final_text payload = t) ∧
    (step1 payload = none → ∀ s, pyIndex payload "response" = some (.str s) →
      pyStrip s ≠ "" → _extract_final_text payload = pyStrip s) := by
  cases payload with
  | obj fields =>
    constructor
    · intro t ht
      simp [_extract_final_text, ht]
    · intro h1 s hs hne
      simp [_extract_final_text, h1, step2, hs, hne]
  | null => simp [Json.isObj] at h
  | bool b => simp [Json.isObj] at h
  | num n => simp [Json.isObj] at h
  | str s => simp [Json.isObj] at h
  | arr items => simp [Json.isObj] at h

/-- Witness for the amended C1: a content list with no string `text` fields
falls through to the trimmed `response`. -/
theorem extract_search_order_witness :
    _extract_final_text (.obj [("result", .obj [("data", .obj [("message",
      .obj [("content", .arr [.obj [("note", .str "x")]])])])]),
      ("response", .str " hi ")]) = "hi" :=
  (extract_search_order (.obj [("result", .obj [("data", .obj [("message",
      .obj [("content", .arr [.obj [("note", .str "x")]])])])]),
      ("response", .str " hi ")]) rfl).2 rfl " hi " rfl (by decide)

/-- The value of `data.get("status") or data.get("state") or
data.get("run_status") or ""` in `_poll_run_result` (line 215-217): the first
truthy of the three fields, else the empty string. -/
def orStatus (d : Json) : Json :=
  pyOr (jGetD d "status") (pyOr (jGetD d "state")
    (pyOr (jGetD d "run_status") (.str "")))

/-- Terminal-success statuses of `_poll_run_result` (line 218). -/
def successSet : List String := ["completed", "succeeded", "success", "done"]

/-- Terminal-failure statuses of `_poll_run_result` (line 220). -/
def failureSet : List String := ["failed", "error", "cancelled"]

/-- Classification of one poll payload. -/
inductive RunClass where
  | success
  | failure
  | pending
deriving DecidableEq, Repr

/-- Reading and classifying the status of one poll payload: `.get` on a
non-dict and `.lower()` on a truthy non-string both raise (AttributeError),
modelled as `Except.error`; otherwise the lowered status string is matched
against the success and failure sets. -/
def classifyStatus (d : Json) : Except String RunClass :=
  match d with
  | .obj _ =>
    match orStatus d with
    | .str s =>
      let low := pyLower s
      if low ∈ successSet then .ok .success
      else if low ∈ failureSet then .ok .failure
      else .ok .pending
    | _ => .error "AttributeError: lower"
  | _ => .error "AttributeError: get"

/-- Outcome of the polling loop. -/
inductive PollOutcome where
  | success (d : Json)
  | runFailed (d : Json)
  | timedOut
  | pyError (msg : String)

/-- The loop of `_poll_run_result` (lines 211-226) over a trace of poll
responses.  Each trace entry `(g, d)` is one GET: `g ≥ 0` is the wall time the
request took and `d` its 2xx JSON body (transport failures, which propagate
immediately, are outside the trace).  `t` is the elapsed time since `start`
when the GET was issued, so the timeout comparison `time.time() - start >
timeout_s` happens at elapsed time `t + g`; a pending iteration then sleeps
`interval` and retries.  Returns the outcome (`none` when the trace is
exhausted before the loop finishes), the number of GETs consumed, and the
list of sleep durations performed. -/
def pollLoopT (timeout interval : ℚ) :
    List (ℚ × Json) → ℚ → Option PollOutcome × Nat × List ℚ
  | [], _ => (none, 0, [])
  | (g, d) :: rest, t =>
    let e := t + g
    match classifyStatus d with
    | .error m => (some (.pyError m), 1, [])
    | .ok .success => (some (.success d), 1, [])
    | .ok .failure => (some (.runFailed d), 1, [])
    | .ok .pending =>
      if e > timeout then (some .timedOut, 1, [])
      else
        let r := pollLoopT timeout interval rest (e + interval)
        (r.1, r.2.1 + 1, interval :: r.2.2)

/-- An HTTP-style error as raised by the source (`HTTPException`). -/
structure HTTPExc where
  status_code : Nat
  detail : String
deriving DecidableEq, Repr

/-- Character escaping of Python `json.dumps` for the characters in play. -/
def dumpsChar (c : Char) : String :=
  if c = '"' then "\\\""
  else if c = '\\' then "\\\\"
  else if c = '\n' then "\\n"
  else if c = '\r' then "\\r"
  else if c = '\t' then "\\t"
  else String.mk [c]

/-- Python `json.dumps` of a string. -/
def dumpsStr (s : String) : String :=
  "\"" ++ String.join (s.data.map dumpsChar) ++ "\""

mutual

/-- Python `json.dumps` with default separators. -/
def dumps : Json → String
  | .null => "null"
  | .bool true => "true"
  | .bool false => "false"
  | .num n => toString n
  | .str s => dumpsStr s
  | .arr items => "[" ++ String.intercalate ", " (dumpsList items) ++ "]"
  | .obj fields => "\x7b" ++ String.intercalate ", " (dumpsFields fields) ++ "\x7d"

/-- `json.dumps` of each element of a list. -/
def dumpsList : List Json → List String
  | [] => []
  | x :: xs => dumps x :: dumpsList xs

/-- `json.dumps` of each `key: value` entry of a dict. -/
def dumpsFields : List (String × Json) → List String
  | [] => []
  | (k, v) :: xs => (dumpsStr k ++ ": " ++ dumps v) :: dumpsFields xs

end

/-- The exception `_poll_run_result` raises for a terminal outcome: a
run failure raises `HTTPException(400, "Run failed: " + json.dumps(data))`
(line 221-223) and a timeout raises `HTTPException(408, "Polling timed
out.")` (line 225). -/
def pollHTTPError : PollOutcome → Option HTTPExc
  | .runFailed d => some ⟨400, "Run failed: " ++ dumps d⟩
  | .timedOut => some ⟨408, "Polling timed out."⟩
  | _ => none

/-- Definition following the spec sentence "read status from the first
present of three alternate field names": the value of the first of
`status`, `state`, `run_status` whose key is present in the payload,
regardless of the value's truthiness.  Kept for comparison with `orStatus`,
which is translated from the source. -/
def specFirstPresentStatus (d : Json) : Option Json :=
  match d with
  | .obj fields =>
    match Json.lookup "status" fields with
    | some v => some v
    | none =>
      match Json.lookup "state" fields with
      | some v => some v
      | none => Json.lookup "run_status" fields
  | _ => none

/-- A poll payload whose `status` key is present but empty while `state`
is `"failed"`. -/
def cxPollStatus : Json := .obj [("status", .str ""), ("state", .str "failed")]

/-- Counterexample to C4: the source reads the first truthy of the three
field names, not the first present.  On `cxPollStatus` the first present
field is `status = ""` — which classifies as pending under the claim's
reading since `""` is in neither terminal set — but the code falls past the
falsy `status` to `state = "failed"` and fails the run. -/
theorem poll_first_truthy_not_first_present :
    specFirstPresentStatus cxPollStatus = some (.str "") ∧
    ("" ∉ successSet ∧ "" ∉ failureSet) ∧
    orStatus cxPollStatus = .str "failed" ∧
    classifyStatus cxPollStatus = .ok .failure ∧
    (pollLoopT 300 2 [(0, cxPollStatus)] 0).1 = some (.runFailed cxPollStatus) :=
  ⟨rfl, by decide, rfl, rfl, rfl⟩

/-- Claim C4 (amended): on every poll iteration the run status is the first
truthy of the three alternate field names `status`, `state`, `run_status`
(a present-but-falsy field is skipped), normalized case-insensitively; a
status lowering into `{completed, succeeded, success, done}` makes the loop
return the full poll payload as terminal success, and one lowering into
`{failed, error, cancelled}` makes it fail, raised as a 400 error whose
detail embeds the full failing payload. -/
theorem poll_terminal_classification (timeout interval t g : ℚ)
    (rest : List (ℚ × Json)) (d : Json) (s : String)
    (hs : orStatus d = .str s) (hobj : d.isObj = true) :
    (pyLower s ∈ successSet →
      (pollLoopT timeout interval ((g, d) :: rest) t).1 = some (.success d)) ∧
    (pyLower s ∈ failureSet →
      (pollLoopT timeout interval ((g, d) :: rest) t).1 = some (.runFailed d) ∧
      pollHTTPError (.runFailed d) =
        some ⟨400, "Run failed: " ++ dumps d⟩) := by
  cases d with
  | obj fields =>
    constructor
    · intro hmem
      simp [pollLoopT, classifyStatus, hs, hmem]
    · intro hmem
      have hns : pyLower s ∉ successSet := by
        simp only [failureSet, List.mem_cons, List.not_mem_nil,
          or_false] at hmem
        rcases hmem with h | h | h <;> rw [h] <;> decide
      refine ⟨?_, rfl⟩
      simp [pollLoopT, classifyStatus, hs, hns, hmem]
  | null => simp [Json.isObj] at hobj
  | bool b => simp [Json.isObj] at hobj
  | num n => simp [Json.isObj] at hobj
  | str s2 => simp [Json.isObj] at hobj
  | arr items => simp [Json.isObj] at hobj

/-- Witness for the amended C4: `"SUCCEEDED"`, `"Done"`, `"completed"`
classify as success; `"Error"` and `"cancelled"` classify as failure with a
400 error embedding the payload. -/
theorem poll_terminal_classification_witness :
    (pollLoopT 300 2 [(0, .obj [("status", .str "SUCCEEDED")])] 0).1
      = some (.success (.obj [("status", .str "SUCCEEDED")])) ∧
    (pollLoopT 300 2 [(1, .obj [("state", .str "Done")])] 0).1
      = some (.success (.obj [("state", .str "Done")])) ∧
    (pollLoopT 300 2 [(0, .obj [("run_status", .str "completed")])] 0).1
      = some (.success (.obj [("run_status", .str "completed")])) ∧
    ((pollLoopT 300 2 [(0, .obj [("status", .str "Error")])] 0).1
      = some (.runFailed (.obj [("status", .str "Error")])) ∧
      pollHTTPError (.runFailed (.obj [("status", .str "Error")])) =
        some ⟨400, "Run failed: " ++ dumps (.obj [("status", .str "Error")])⟩) ∧
    (pollLoopT 300 2 [(0, .obj [("status", .str "cancelled")])] 0).1
      = some (.runFailed (.obj [("status", .str "cancelled")])) :=
  ⟨(poll_terminal_classification 300 2 0 0 []
      (.obj [("status", .str "SUCCEEDED")]) "SUCCEEDED" rfl rfl).1 (by decide),
   (poll_terminal_classification 300 2 0 1 []
      (.obj [("state", .str "Done")]) "Done" rfl rfl).1 (by decide),
   (poll_terminal_classification 300 2 0 0 []
      (.obj [("run_status", .str "completed")]) "completed" rfl rfl).1
      (by decide),
   (poll_terminal_classification 300 2 0 0 []
      (.obj [("status", .str "Error")]) "Error" rfl rfl).2 (by decide),
   ((poll_terminal_classification 300 2 0 0 []
      (.obj [("status", .str "cancelled")]) "cancelled" rfl rfl).2
      (by decide)).1⟩

/-- With every poll response pending, the loop reaches the timeout branch as
soon as enough responses are available: the elapsed clock grows by at least
`interval` per iteration, so once it exceeds `timeout` the loop stops. -/
theorem pollLoopT_all_pending_timedOut (timeout interval : ℚ)
    (checks : List (ℚ × Json)) :
    ∀ t : ℚ, (∀ p ∈ checks, classifyStatus p.2 = .ok .pending) →
      (∀ p ∈ checks, 0 ≤ p.1) →
      t ≤ timeout + interval →
      timeout + interval < t + checks.length * interval →
      (pollLoopT timeout interval checks t).1 = some .timedOut := by
  induction checks with
  | nil =>
    intro t hp hg h1 h2
    simp only [List.length_nil, Nat.cast_zero, zero_mul, add_zero] at h2
    linarith
  | cons hd tl ih =>
    intro t hp hg h1 h2
    obtain ⟨g, d⟩ := hd
    have hpd : classifyStatus d = .ok .pending := hp (g, d) (by simp)
    have hgd : 0 ≤ g := hg (g, d) (by simp)
    simp only [pollLoopT, hpd]
    by_cases hcase : t + g > timeout
    · simp [hcase]
    · rw [if_neg hcase]
      have hle : t + g ≤ timeout := not_lt.mp hcase
      simp only [List.length_cons] at h2
      push_cast at h2
      have hsplit : ((tl.length : ℚ) + 1) * interval =
          (tl.length : ℚ) * interval + interval := by ring
      rw [hsplit] at h2
      exact ih (t + g + interval)
        (fun p hpmem => hp p (List.mem_cons_of_mem _ hpmem))
        (fun p hpmem => hg p (List.mem_cons_of_mem _ hpmem))
        (by linarith)
        (by linarith)

/-- Every suspension the poll loop performs lasts exactly `interval`. -/
theorem pollLoopT_sleeps_interval (timeout interval : ℚ)
    (checks : List (ℚ × Json)) :
    ∀ (t x : ℚ), x ∈ (pollLoopT timeout interval checks t).2.2 →
      x = interval := by
  induction checks with
  | nil => intro t x hx; simp [pollLoopT] at hx
  | cons hd tl ih =>
    intro t x hx
    obtain ⟨g, d⟩ := hd
    rcases hc : classifyStatus d with m | c
    · simp [pollLoopT, hc] at hx
    · cases c with
      | success => simp [pollLoopT, hc] at hx
      | failure => simp [pollLoopT, hc] at hx
      | pending =>
        simp only [pollLoopT, hc] at hx
        by_cases hcase : t + g > timeout
        · simp [hcase] at hx
        · simp only [hcase, if_false, if_neg hcase] at hx
          simp only [List.mem_cons] at hx
          rcases hx with hx | hx
          · exact hx
          · exact ih _ _ hx

/-- Claim C5: for every trace of poll responses whose statuses all classify
as pending, the loop terminates with the timeout error once the elapsed wall
time since the first attempt exceeds `timeout_seconds` (enough trace entries
given, each GET taking nonnegative time); with `timeout_seconds = 0` it fails
on the first check or, when that check lands at elapsed time exactly 0, on
the second check right after one sleep — at most two checks; and every
suspension between non-final checks lasts exactly `interval_seconds`, with no
backoff growth. -/
theorem poll_pending_times_out (timeout interval : ℚ)
    (checks : List (ℚ × Json)) (hto : 0 ≤ timeout) (hi : 0 < interval)
    (hp : ∀ p ∈ checks, classifyStatus p.2 = .ok .pending)
    (hg : ∀ p ∈ checks, 0 ≤ p.1)
    (hlen : timeout + interval < (checks.length : ℚ) * interval) :
    (pollLoopT timeout interval checks 0).1 = some .timedOut ∧
    (timeout = 0 → (pollLoopT timeout interval checks 0).2.1 ≤ 2) ∧
    (∀ x ∈ (pollLoopT timeout interval checks 0).2.2, x = interval) := by
  refine ⟨pollLoopT_all_pending_timedOut timeout interval checks 0 hp hg
      (by linarith) (by linarith), ?_, fun x hx =>
      pollLoopT_sleeps_interval timeout interval checks 0 x hx⟩
  intro h0
  subst h0
  rcases checks with _ | ⟨⟨g0, d0⟩, tl⟩
  · simp only [List.length_nil, Nat.cast_zero, zero_mul, zero_add] at hlen
    linarith
  rcases tl with _ | ⟨⟨g1, d1⟩, tl2⟩
  · simp at hlen
  have hp0 : classifyStatus d0 = .ok .pending := hp (g0, d0) (by simp)
  have hp1 : classifyStatus d1 = .ok .pending := hp (g1, d1) (by simp)
  have hg0 : 0 ≤ g0 := hg (g0, d0) (by simp)
  have hg1 : 0 ≤ g1 := hg (g1, d1) (by simp)
  by_cases hc0 : (0 : ℚ) < g0
  · simp [pollLoopT, hp0, hc0]
  · have hg0z : g0 = 0 := le_antisymm (not_lt.mp hc0) hg0
    have hc1 : (0 : ℚ) < interval + g1 := by linarith
    simp [pollLoopT, hp0, hp1, hg0z, hc1, hc0]

/-- A pending poll payload used by the C5 witness. -/
def pendPayload : Json := .obj [("status", .str "running")]

/-- Witness for C5: `timeout_seconds = 0`, `interval_seconds = 2`, two
zero-duration pending responses — the loop times out using at most two
checks. -/
theorem poll_pending_times_out_witness :
    (pollLoopT 0 2 [(0, pendPayload), (0, pendPayload)] 0).1
      = some .timedOut ∧
    (pollLoopT 0 2 [(0, pendPayload), (0, pendPayload)] 0).2.1 ≤ 2 :=
  have h := poll_pending_times_out 0 2 [(0, pendPayload), (0, pendPayload)]
    (le_refl 0) (by norm_num)
    (by intro p hp; fin_cases hp <;> rfl)
    (by intro p hp; fin_cases hp <;> norm_num)
    (by norm_num)
  ⟨h.1, h.2.1 rfl⟩

mutual

/-- Python `repr()` of a JSON-decoded value (element rendering used by
`str()` on lists and dicts; string escaping not modelled — no claim
evaluates it). -/
def pyRepr : Json → String
  | .null => "None"
  | .bool true => "True"
  | .bool false => "False"
  | .num n => toString n
  | .str s => "\x27" ++ s ++ "\x27"
  | .arr items => "[" ++ String.intercalate ", " (pyReprList items) ++ "]"
  | .obj fields => "\x7b" ++ String.intercalate ", " (pyReprFields fields)
      ++ "\x7d"

/-- `repr()` of each element of a list. -/
def pyReprList : List Json → List String
  | [] => []
  | x :: xs => pyRepr x :: pyReprList xs

/-- `repr()` of each entry of a dict. -/
def pyReprFields : List (String × Json) → List String
  | [] => []
  | (k, v) :: xs => ("\x27" ++ k ++ "\x27: " ++ pyRepr v) :: pyReprFields xs

end

/-- Python `str()` of a JSON-decoded value, as applied by `str(status)` at
line 182: identity on strings, `repr`-style otherwise. -/
def pyStr : Json → String
  | .str s => s
  | v => pyRepr v

/-- Python `str()` of a starlette `HTTPException`: `"<code>: <detail>"`. -/
def strHTTPExc (e : HTTPExc) : String :=
  toString e.status_code ++ ": " ++ e.detail

/-- The request's optional `thread_id` as the Python value it holds. -/
def optThread : Option String → Json
  | some s => .str s
  | none => .null

/-- The JSON envelope assembled by `chat_non_stream`. -/
structure Envelope where
  error_message : Bool
  status : Json
  response : String
  thread_id : Json
  raw : Option Json

/-- Result of one `/chat/v2` request: a 200 envelope or an `HTTPException`
with a status code and detail string. -/
inductive ChatResult where
  | ok (env : Envelope)
  | error (status_code : Nat) (detail : String)

/-- `chat_non_stream` of `main.py` lines 148-199, from the parsed 2xx trigger
response onward (token acquisition and the trigger POST, both upstream I/O,
precede this slice; `checks` is the poll-response trace consumed by
`_poll_run_result`, which `chat_non_stream` calls with its defaults
`timeout_s=300`, `interval_s=2`).  The boolean records whether polling was
entered.  `none` models an unfinished poll trace.  Notes translated from the
source: a non-dict trigger body makes `trig_data.get("thread_id")` raise
AttributeError, which the blanket `except Exception` turns into a 500; an
`HTTPException` raised inside `_poll_run_result` is itself an `Exception`,
so the same blanket handler re-wraps it as a 500 whose detail embeds
`str(HTTPException)`, i.e. `"<code>: <detail>"`. -/
def chat_non_stream (reqThread : Option String) (includeRaw : Bool)
    (trig : Json) (checks : List (ℚ × Json)) : Option (ChatResult × Bool) :=
  match trig with
  | .obj _ =>
    let inline := _extract_final_text trig
    let returnedThread := pyOr (jGetD trig "thread_id") (optThread reqThread)
    if inline ≠ "" then
      some (.ok ⟨false, .str "completed", inline, returnedThread,
        if includeRaw then some trig else none⟩, false)
    else if !(jGetD trig "run_id").truthy then
      some (.ok ⟨false, pyOr (jGetD trig "status") (.str "unknown"), "",
        returnedThread, if includeRaw then some trig else none⟩, false)
    else
      match (pollLoopT 300 2 checks 0).1 with
      | none => none
      | some (.success finalData) =>
        some (.ok ⟨false,
          .str (pyStr (pyOr (jGetD finalData "status") (.str "completed"))),
          _extract_final_text finalData,
          pyOr (jGetD finalData "thread_id") returnedThread,
          if includeRaw then some finalData else none⟩, true)
      | some (.runFailed d) =>
        some (.error 500 ("Internal server error: " ++
          strHTTPExc ⟨400, "Run failed: " ++ dumps d⟩), true)
      | some .timedOut =>
        some (.error 500 ("Internal server error: " ++
          strHTTPExc ⟨408, "Polling timed out."⟩), true)
      | some (.pyError m) =>
        some (.error 500 ("Internal server error: " ++ m), true)
  | _ => some (.error 500 "Internal server error: AttributeError", false)

/-- Claim C7: when extraction on the trigger response yields the empty string
and no `run_id` key is present, the handler returns the terminal no-op
envelope — `error_message: false`, status the trigger's own `status` field or
`"unknown"`, empty response, thread id from the trigger or the request — and
issues no poll request at all. -/
theorem chat_no_run_id_no_poll (reqThread : Option String)
    (includeRaw : Bool) (fields : List (String × Json))
    (checks : List (ℚ × Json))
    (hempty : _extract_final_text (.obj fields) = "")
    (hnorun : Json.lookup "run_id" fields = none) :
    chat_non_stream reqThread includeRaw (.obj fields) checks =
      some (.ok ⟨false, pyOr (jGetD (.obj fields) "status") (.str "unknown"),
        "", pyOr (jGetD (.obj fields) "thread_id") (optThread reqThread),
        if includeRaw then some (.obj fields) else none⟩, false) := by
  have hrt : (jGetD (.obj fields) "run_id").truthy = false := by
    simp [jGetD, hnorun, Json.truthy]
  simp [chat_non_stream, hempty, hrt]

/-- Witness for C7: spec scenario C — `run_id` absent, `status: "queued"`
gives envelope `status "queued"`, empty response, and no polling. -/
theorem chat_no_run_id_no_poll_witness :
    chat_non_stream none false (.obj [("status", .str "queued")]) [] =
      some (.ok ⟨false, .str "queued", "", .null, none⟩, false) :=
  chat_no_run_id_no_poll none false [("status", .str "queued")] [] rfl rfl

/-- Claim C8: every envelope returned by a non-raising execution of the
handler — inline-result, no-run-id, and post-poll path alike — has
`error_message` equal to `false`. -/
theorem chat_success_error_message_false (reqThread : Option String)
    (includeRaw : Bool) (trig : Json) (checks : List (ℚ × Json))
    (env : Envelope) (polled : Bool)
    (h : chat_non_stream reqThread includeRaw trig checks =
      some (.ok env, polled)) :
    env.error_message = false := by
  cases trig with
  | obj fields =>
    simp only [chat_non_stream] at h
    split at h
    · simp only [Option.some.injEq, Prod.mk.injEq, ChatResult.ok.injEq] at h
      exact h.1 ▸ rfl
    · split at h
      · simp only [Option.some.injEq, Prod.mk.injEq,
          ChatResult.ok.injEq] at h
        exact h.1 ▸ rfl
      · split at h
        · simp at h
        · simp only [Option.some.injEq, Prod.mk.injEq,
            ChatResult.ok.injEq] at h
          exact h.1 ▸ rfl
        · simp at h
        · simp at h
        · simp at h
  | null => simp [chat_non_stream] at h
  | bool b => simp [chat_non_stream] at h
  | num n => simp [chat_non_stream] at h
  | str s => simp [chat_non_stream] at h
  | arr items => simp [chat_non_stream] at h

/-- Witness for C8: spec scenario A — an inline `response: "42"` envelope
carries `error_message: false`. -/
theorem chat_success_error_message_false_witness :
    Envelope.error_message ⟨false, .str "completed", "42", .null, none⟩
      = false :=
  chat_success_error_message_false none false
    (.obj [("response", .str "42")]) []
    ⟨false, .str "completed", "42", .null, none⟩ false rfl

/-- A trigger response with a truthy non-string `status` field, no run id
and no extractable text. -/
def cxStatusNum : Json := .obj [("status", .num 5)]

/-- Counterexample to C2: on the no-run-id path the trigger's `status` passes
through without `str()` conversion, so an upstream numeric status `5` lands
in the envelope as a number, not a string. -/
theorem chat_status_not_string_cx :
    chat_non_stream none false cxStatusNum [] =
      some (.ok ⟨false, .num 5, "", .null, none⟩, false) ∧
    Json.isStr (.num 5) = false :=
  ⟨rfl, rfl⟩

/-- Claim C2 (amended): in every success path the envelope's status is a
string — `"completed"` inline, `str()` of the poll status after polling —
except on the no-run-id path, which passes the trigger's `status` field
through unconverted: there the status is a string whenever the upstream
field is a string or falsy (falling back to `"unknown"`), but a truthy
non-string value is placed in the envelope as-is. -/
theorem chat_status_string (reqThread : Option String) (includeRaw : Bool)
    (trig : Json) (checks : List (ℚ × Json)) (env : Envelope) (polled : Bool)
    (h : chat_non_stream reqThread includeRaw trig checks =
      some (.ok env, polled)) :
    env.status.isStr = true ∨
      (env.status = jGetD trig "status" ∧
        (jGetD trig "status").truthy = true ∧
        (jGetD trig "status").isStr = false) := by
  cases trig with
  | obj fields =>
    simp only [chat_non_stream] at h
    split at h
    · simp only [Option.some.injEq, Prod.mk.injEq, ChatResult.ok.injEq] at h
      exact Or.inl (h.1 ▸ rfl)
    · split at h
      · simp only [Option.some.injEq, Prod.mk.injEq,
          ChatResult.ok.injEq] at h
        by_cases hs : (jGetD (.obj fields) "status").truthy = true
        · have hstatus : env.status = jGetD (.obj fields) "status" := by
            rw [← h.1]
            simp [pyOr, hs]
          by_cases hstr : (jGetD (.obj fields) "status").isStr = true
          · exact Or.inl (hstatus ▸ hstr)
          · exact Or.inr ⟨hstatus, hs, by simpa using hstr⟩
        · have hstatus : env.status = .str "unknown" := by
            rw [← h.1]
            simp [pyOr, hs]
          exact Or.inl (by rw [hstatus]; rfl)
      · split at h
        · simp at h
        · simp only [Option.some.injEq, Prod.mk.injEq,
            ChatResult.ok.injEq] at h
          exact Or.inl (h.1 ▸ rfl)
        · simp at h
        · simp at h
        · simp at h
  | null => simp [chat_non_stream] at h
  | bool b => simp [chat_non_stream] at h
  | num n => simp [chat_non_stream] at h
  | str s => simp [chat_non_stream] at h
  | arr items => simp [chat_non_stream] at h

/-- Witness for the amended C2: the inline path yields the string status
`"completed"`. -/
theorem chat_status_string_witness :
    (Envelope.status ⟨false, .str "completed", "42", .null, none⟩).isStr
        = true ∨
      (Envelope.status ⟨false, .str "completed", "42", .null, none⟩ =
          jGetD (.obj [("response", .str "42")]) "status" ∧
        (jGetD (.obj [("response", .str "42")]) "status").truthy = true ∧
        (jGetD (.obj [("response", .str "42")]) "status").isStr = false) :=
  chat_status_string none false (.obj [("response", .str "42")]) []
    ⟨false, .str "completed", "42", .null, none⟩ false rfl

/-- The process-wide token cache: `app.state.token` (initially `None`) and
`app.state.token_exp` (initially `0.0`). -/
structure TokenState where
  token : Json
  token_exp : ℚ

/-- Result of one `get_token()` call. -/
inductive AuthOutcome where
  | ok (tok : Json)
  | httpStatusErr (code : Nat)
  | httpExc (e : HTTPExc)
  | pyErr (msg : String)

/-- `get_token` of `main.py` lines 73-101, from the cache check onward.
`now` is the value of `monotonic()`; `issuer` is the issuer exchange:
`Except.error code` models a non-2xx reply that `raise_for_status` turns
into an `httpx.HTTPStatusError`, `Except.ok data` the parsed 2xx JSON body
(which protocol shape was posted does not affect this logic).  Returns the
result, the new cache state, and whether an issuer call was made.  A payload
with no truthy `token` or `access_token` raises
`HTTPException(502, "Auth server did not return a token.")` before the cache
assignments, so the cache is left unchanged; a non-dict payload makes
`data.get` raise AttributeError. -/
def get_token (ttl : ℚ) (st : TokenState) (now : ℚ)
    (issuer : Except Nat Json) : AuthOutcome × TokenState × Bool :=
  if st.token.truthy = true ∧ now < st.token_exp then (.ok st.token, st, false)
  else
    match issuer with
    | .error code => (.httpStatusErr code, st, true)
    | .ok data =>
      match data with
      | .obj _ =>
        let tok := pyOr (jGetD data "token") (jGetD data "access_token")
        if tok.truthy = true then (.ok tok, ⟨tok, now + ttl⟩, true)
        else (.httpExc ⟨502, "Auth server did not return a token."⟩, st, true)
      | _ => (.pyErr "AttributeError: get", st, true)

/-- Sequential `get_token()` callers at the given times against a fixed
issuer: final cache state, per-call results, and the number of issuer
refresh calls made. -/
def getTokenRun (ttl : ℚ) (issuer : Except Nat Json) :
    TokenState → List ℚ → TokenState × List AuthOutcome × Nat
  | st, [] => (st, [], 0)
  | st, t :: ts =>
    match get_token ttl st t issuer with
    | (r, st2, b) =>
      match getTokenRun ttl issuer st2 ts with
      | (stf, rs, n) => (stf, r :: rs, (if b then 1 else 0) + n)

/-- Splitting a sequential token-cache run across an append of call
lists. -/
theorem getTokenRun_append (ttl : ℚ) (issuer : Except Nat Json)
    (l1 l2 : List ℚ) : ∀ st : TokenState,
    getTokenRun ttl issuer st (l1 ++ l2) =
      ((getTokenRun ttl issuer (getTokenRun ttl issuer st l1).1 l2).1,
        (getTokenRun ttl issuer st l1).2.1 ++
          (getTokenRun ttl issuer (getTokenRun ttl issuer st l1).1 l2).2.1,
        (getTokenRun ttl issuer st l1).2.2 +
          (getTokenRun ttl issuer
            (getTokenRun ttl issuer st l1).1 l2).2.2) := by
  induction l1 with
  | nil => intro st; simp [getTokenRun]
  | cons t ts ih =>
    intro st
    simp only [List.cons_append, getTokenRun]
    rcases hget : get_token ttl st t issuer with ⟨r, st2, b⟩
    simp [ih st2, Nat.add_assoc]

/-- Within the TTL window every sequential call is served from the cache
with no issuer call. -/
theorem getTokenRun_cached (ttl T S : ℚ) (tok : Json)
    (issuer : Except Nat Json) (htok : tok.truthy = true) (ts : List ℚ)
    (hts : ∀ u ∈ ts, T ≤ u ∧ u < T + S) :
    getTokenRun ttl issuer ⟨tok, T + S⟩ ts =
      (⟨tok, T + S⟩, ts.map fun _ => .ok tok, 0) := by
  induction ts with
  | nil => rfl
  | cons u tl ih =>
    have hu := hts u (by simp)
    have hget : get_token ttl ⟨tok, T + S⟩ u issuer =
        (.ok tok, ⟨tok, T + S⟩, false) := by
      simp [get_token, htok, hu.2]
    simp [getTokenRun, hget,
      ih (fun x hx => hts x (List.mem_cons_of_mem _ hx))]

/-- Any `get_token` call that misses the cache makes an issuer call,
whatever the issuer replies. -/
theorem get_token_miss_refreshes (ttl : ℚ) (st : TokenState) (now : ℚ)
    (issuer : Except Nat Json)
    (hmiss : ¬ (st.token.truthy = true ∧ now < st.token_exp)) :
    (get_token ttl st now issuer).2.2 = true := by
  simp only [get_token]
  rw [if_neg hmiss]
  rcases issuer with code | data
  · rfl
  · cases data with
    | obj fs =>
      simp only []
      split
      · rfl
      · rfl
    | null => rfl
    | bool b => rfl
    | num n => rfl
    | str s => rfl
    | arr l => rfl

/-- Claim C3: a credential issued at time `T` with TTL `S` (cache state
`⟨tok, T + S⟩`, issued tokens being truthy) is served from the cache, with
no issuer call, for every call at `T ≤ u < T + S`; and for sequential
callers whose times all lie in `[T, T + S)` followed by a first call at
`v ≥ T + S`, the whole run makes exactly one issuer refresh call —
triggered by that first expired call. -/
theorem token_cache_ttl (ttl T S : ℚ) (tok : Json) (issuer : Except Nat Json)
    (htok : tok.truthy = true) (ts : List ℚ) (v : ℚ)
    (hts : ∀ u ∈ ts, T ≤ u ∧ u < T + S) (hv : T + S ≤ v) :
    (∀ u, T ≤ u → u < T + S →
      get_token ttl ⟨tok, T + S⟩ u issuer = (.ok tok, ⟨tok, T + S⟩, false)) ∧
    getTokenRun ttl issuer ⟨tok, T + S⟩ ts =
      (⟨tok, T + S⟩, ts.map fun _ => .ok tok, 0) ∧
    (getTokenRun ttl issuer ⟨tok, T + S⟩ (ts ++ [v])).2.2 = 1 := by
  have hcached := getTokenRun_cached ttl T S tok issuer htok ts hts
  refine ⟨fun u h1 h2 => by simp [get_token, htok, h2], hcached, ?_⟩
  rw [getTokenRun_append ttl issuer ts [v] ⟨tok, T + S⟩]
  simp only [hcached]
  have hmiss : ¬ ((tok.truthy = true) ∧ v < T + S) := by
    rintro ⟨_, hlt⟩
    linarith
  have hexp := get_token_miss_refreshes ttl ⟨tok, T + S⟩ v issuer hmiss
  rcases hget : get_token ttl ⟨tok, T + S⟩ v issuer with ⟨r, st2, b⟩
  have hb : b = true := by rw [hget] at hexp; exact hexp
  subst hb
  simp [getTokenRun, hget]

/-- Witness for C3: three in-window calls at 0, 100, 2999 on a credential
issued at 0 with TTL 3000 all hit the cache with zero issuer calls; adding a
first call at 3000 makes the refresh count exactly one. -/
theorem token_cache_ttl_witness :
    get_token 3000 ⟨.str "tok0", 0 + 3000⟩ 100
        (.ok (.obj [("token", .str "tok1")])) =
      (.ok (.str "tok0"), ⟨.str "tok0", 0 + 3000⟩, false) ∧
    getTokenRun 3000 (.ok (.obj [("token", .str "tok1")]))
        ⟨.str "tok0", 0 + 3000⟩ [0, 100, 2999] =
      (⟨.str "tok0", 0 + 3000⟩,
        [.ok (.str "tok0"), .ok (.str "tok0"), .ok (.str "tok0")], 0) ∧
    (getTokenRun 3000 (.ok (.obj [("token", .str "tok1")]))
        ⟨.str "tok0", 0 + 3000⟩ ([0, 100, 2999] ++ [3000])).2.2 = 1 :=
  have h := token_cache_ttl 3000 0 3000 (.str "tok0")
    (.ok (.obj [("token", .str "tok1")])) rfl [0, 100, 2999] 3000
    (by intro u hu; fin_cases hu <;> norm_num) (by norm_num)
  ⟨h.1 100 (by norm_num) (by norm_num), h.2.1, h.2.2⟩

/-- Claim C9: when the cache is stale and the issuer's 2xx JSON payload
contains neither `token` nor `access_token`, `get_token` raises
`HTTPException(502, ...)` — returning and caching nothing — and the cached
credential and its expiry are left unchanged. -/
theorem token_missing_fields_raises (ttl : ℚ) (st : TokenState) (now : ℚ)
    (fields : List (String × Json))
    (hmiss : ¬ (st.token.truthy = true ∧ now < st.token_exp))
    (htokf : Json.lookup "token" fields = none)
    (hacc : Json.lookup "access_token" fields = none) :
    get_token ttl st now (.ok (.obj fields)) =
      (.httpExc ⟨502, "Auth server did not return a token."⟩, st, true) := by
  have h1 : jGetD (.obj fields) "token" = .null := by simp [jGetD, htokf]
  have h2 : jGetD (.obj fields) "access_token" = .null := by
    simp [jGetD, hacc]
  simp only [get_token]
  rw [if_neg hmiss]
  simp [h1, h2, pyOr, Json.truthy]

/-- Witness for C9: a stale cache and an issuer payload with neither token
field leave the state untouched and raise the 502. -/
theorem token_missing_fields_raises_witness :
    get_token 3000 ⟨.null, 0⟩ 5 (.ok (.obj [("foo", .str "x")])) =
      (.httpExc ⟨502, "Auth server did not return a token."⟩,
        ⟨.null, 0⟩, true) :=
  token_missing_fields_raises 3000 ⟨.null, 0⟩ 5 [("foo", .str "x")]
    (by norm_num [Json.truthy]) rfl rfl
